import Mathlib

/-!
A shallow embedding of the ingestion-and-alerting engine of the
temperature-monitor repository (files `src/services/mqtt_service.py`,
`src/core/monitor.py`, `src/config/settings.py`), together with theorems
settling the behavioural claims about it.

Modelling conventions:
* Python floats are modelled as rationals (`ℚ`); every comparison and
  arithmetic operation appearing in the code is exact at the values the
  claims mention, so no binary-rounding behaviour is relevant.
* Python dictionaries with a fixed key set are modelled as total functions
  (initialised to the source's initial values) or as association lists where
  the insertion-order semantics of a dict literal matters.
* Fallible Python operations (`float(...)`, `bytes.decode`, `json.loads`)
  return `Option`.
-/

/-! ## Configuration (`src/config/settings.py`) -/

/-- `TEMPERATURE_OFFSET = 12.6` from `TemperatureMonitorConfig.__init__`. -/
def TEMPERATURE_OFFSET : ℚ := 12.6

/-- `MIN_TEMP_ALERT = float(120)` from `TemperatureMonitorConfig.__init__`. -/
def MIN_TEMP_ALERT : ℚ := 120

/-- `MAX_TEMP_ALERT = float(155)` from `TemperatureMonitorConfig.__init__`. -/
def MAX_TEMP_ALERT : ℚ := 155

/-- `TemperatureMonitorConfig.apply_temperature_offset`: returns `None` for
`None`, otherwise adds the fixed offset. -/
def apply_temperature_offset (raw_temp : Option ℚ) : Option ℚ :=
  match raw_temp with
  | none => none
  | some t => some (t + TEMPERATURE_OFFSET)

/-! ## Python primitives used by the code

`pyFloat` models CPython's `float(str)` on already-stripped text, restricted
to finite decimal literals: optional sign, digits with an optional fraction
part (at least one digit on one side of the dot), and an optional exponent.
The special spellings `inf`/`nan` (whose values are not rationals) and digit
underscores are outside the model; no claim depends on them. -/

def digitVal (c : Char) : ℕ := c.toNat - 48

/-- Value of a digit string read as a decimal integer. -/
def decDigitsVal (ds : List Char) : ℕ :=
  ds.foldl (fun a c => 10 * a + digitVal c) 0

/-- Value of a digit string read as a decimal fraction (digits after the dot). -/
def decFracVal (ds : List Char) : ℚ :=
  ds.foldr (fun c a => ((digitVal c : ℚ) + a) / 10) 0

/-- Unsigned mantissa and optional exponent of a float literal. -/
def pyFloatCore (cs : List Char) : Option ℚ :=
  let p1 := cs.span Char.isDigit
  let p2 :=
    match p1.2 with
    | '.' :: rest => (rest.span Char.isDigit)
    | _ => ([], p1.2)
  if p1.1.isEmpty ∧ p2.1.isEmpty then none
  else
    let m : ℚ := (decDigitsVal p1.1 : ℚ) + decFracVal p2.1
    match p2.2 with
    | [] => some m
    | c :: rest =>
      if c = 'e' ∨ c = 'E' then
        let se : ℤ × List Char :=
          match rest with
          | '+' :: t => (1, t)
          | '-' :: t => (-1, t)
          | t => (1, t)
        let p3 := se.2.span Char.isDigit
        if p3.1.isEmpty ∨ ¬p3.2.isEmpty then none
        else some (m * (10 : ℚ) ^ (se.1 * (decDigitsVal p3.1 : ℤ)))
      else none

/-- CPython `float(s)` on stripped text (finite decimal literals). -/
def pyFloat (s : String) : Option ℚ :=
  match s.toList with
  | '+' :: rest => pyFloatCore rest
  | '-' :: rest => (pyFloatCore rest).map Neg.neg
  | cs => pyFloatCore cs

/-- Python `str.upper()` restricted to ASCII, which is all the device ids use. -/
def pyUpper (s : String) : String := String.mk (s.toList.map Char.toUpper)

/-- The characters Python's default `str.strip()` removes (ASCII whitespace;
the exotic unicode space classes never occur in the claims' payloads). -/
def isPySpace (c : Char) : Bool :=
  c = ' ' ∨ c = '\t' ∨ c = '\n' ∨ c = '\r' ∨ c = '\x0b' ∨ c = '\x0c'

/-- Python `str.strip()` with the default character set. -/
def pyStrip (s : String) : String :=
  String.mk (((s.toList.dropWhile isPySpace).reverse.dropWhile isPySpace).reverse)

/-- Whether the first list is an initial segment of the second. -/
def charsPrefixQ : List Char → List Char → Bool
  | [], _ => true
  | _ :: _, [] => false
  | p :: ps, c :: cs => p = c && charsPrefixQ ps cs

/-- Python `str.startswith(pre)`. -/
def pyStartsWith (s pre : String) : Bool :=
  charsPrefixQ pre.toList s.toList

/-- Python `str.endswith(suf)`. -/
def pyEndsWith (s suf : String) : Bool :=
  charsPrefixQ suf.toList.reverse s.toList.reverse

/-- Python `f"{x:.1f}"` on a rational: fixed-point with one decimal digit.
CPython rounds the underlying binary double half-to-even; this model rounds
the rational to the nearest tenth (halves up). The two agree on every value
that is an exact multiple of 0.1, which covers every formatted value in this
development. For the plain `f"{x}"` interpolation of the thresholds
(`str(155.0) = "155.0"`, `str(120.0) = "120.0"`) the same function agrees. -/
def fmt1 (q : ℚ) : String :=
  let n : ℤ := round (q * 10)
  let m : ℕ := n.natAbs
  (if n < 0 then "-" else "") ++ Nat.repr (m / 10) ++ "." ++ Nat.repr (m % 10)

/-! ## Payload decoder (`MQTTService._parse_payload` and friends) -/

/-- Result of `_parse_json_payload`: the fields of the parsed object that the
monitor reads. Outer `Option` = key present in the JSON object; inner
`Option` = the coerced float, `none` when the value under a recognized key
was not numeric (the source stores Python `None` then). Unrecognized keys
pass through in the source but are never read by the monitor, so they are
not tracked. -/
structure ParsedDict where
  temperature : Option (Option ℚ)
  humidity : Option (Option ℚ)
  pressure : Option (Option ℚ)
  water_level : Option (Option ℚ)
deriving DecidableEq, Repr

/-- The value `_parse_payload` hands to the message callback: either the
dictionary from the JSON branch or the float from the numeric branch. -/
inductive Parsed where
  | dict (d : ParsedDict)
  | num (q : ℚ)
deriving DecidableEq, Repr

/-- `MQTTService._parse_numeric_payload`: `float(payload)`, `None` on
`ValueError`. -/
def parse_numeric_payload (payload : String) : Option ℚ :=
  pyFloat payload

/-- A minimal JSON scanner for the structured branch: a flat object whose
values are float literals under the four recognized keys. Modelled from the
spec (§4.1): `json.loads` itself is Python-stdlib code not present in the
repository; no claim in this development depends on the output of the
structured branch, only on which branch of `_parse_payload` is taken, so the
object grammar is restricted to what the recognized numeric keys need. -/
def scanJsonFields (fields : List (String × Option ℚ)) : ParsedDict :=
  fields.foldl
    (fun acc kv =>
      if kv.1 = "temperature" then { acc with temperature := some kv.2 }
      else if kv.1 = "humidity" then { acc with humidity := some kv.2 }
      else if kv.1 = "pressure" then { acc with pressure := some kv.2 }
      else if kv.1 = "water_level" then { acc with water_level := some kv.2 }
      else acc)
    ⟨none, none, none, none⟩

/-- Splits a flat `"key": value` body at top-level commas. -/
def splitCommas (cs : List Char) : List (List Char) :=
  match cs with
  | [] => [[]]
  | c :: rest =>
    let r := splitCommas rest
    if c = ',' then [] :: r
    else match r with
      | [] => [[c]]
      | g :: gs => (c :: g) :: gs

/-- Parses one `"key": value` pair (value a float literal). -/
def parseJsonPair (cs : List Char) : Option (String × Option ℚ) :=
  match (pyStrip (String.mk cs)).toList with
  | '"' :: rest =>
    let p := rest.span (fun c => c ≠ '"')
    match p.2 with
    | '"' :: afterKey =>
      match (pyStrip (String.mk afterKey)).toList with
      | ':' :: valuePart =>
        some (String.mk p.1, pyFloat (pyStrip (String.mk valuePart)))
      | _ => none
    | _ => none
  | _ => none

/-- `MQTTService._parse_json_payload` (see `scanJsonFields` for the modelling
note): parse the object, then coerce recognized keys to float, with a failed
coercion yielding `None` for that key rather than a hard failure. -/
def parse_json_payload (payload : String) : Option ParsedDict :=
  let innerChars := (payload.toList.drop 1).dropLast
  let pieces := splitCommas innerChars
  if pieces = [[]] then some ⟨none, none, none, none⟩
  else
    match pieces.mapM parseJsonPair with
    | none => none
    | some fields => some (scanJsonFields fields)

/-- `MQTTService._parse_payload`: strip, then dispatch on the braced form to
the JSON branch, otherwise to the numeric branch; all failures are `none`. -/
def parse_payload (payload : String) : Option Parsed :=
  let payload := pyStrip payload
  if pyStartsWith payload "\x7b" ∧ pyEndsWith payload "\x7d" then
    (parse_json_payload payload).map Parsed.dict
  else
    (parse_numeric_payload payload).map Parsed.num

/-! ## Monitor state (`TemperatureMonitor.__init__`) -/

/-- The system groups appearing in `latest_temperatures` / the topic table. -/
inductive SystemType where
  | dryer
  | kedi
  | boiler
deriving DecidableEq, Repr

/-- The values held in `alert_status` (the strings "NORMAL"/"HIGH"/"LOW"). -/
inductive AlertStatus where
  | NORMAL
  | HIGH
  | LOW
deriving DecidableEq, Repr

/-- A `{"title": ..., "message": ...}` payload put on `notification_queue`. -/
structure NotificationPayload where
  title : String
  message : String
deriving DecidableEq, Repr

/-- The mutable state of a `TemperatureMonitor` instance that the ingestion
path touches. The per-system dictionaries of the source (fixed key sets,
initialised to `None` / `"NORMAL"`) are modelled as total functions; the two
outbound queues are modelled as the lists of enqueued items:
`notification_queue` is `self.notification_queue` (drained by the web layer)
and `telegram_sent` records the messages handed to
`TelegramService.send_message` (the outward notification dispatcher's
queue). -/
structure MonitorState where
  latest_temperatures : SystemType → String → Option ℚ
  latest_humidity : String → Option ℚ
  latest_pressure : String → Option ℚ
  latest_water_level : String → Option ℚ
  alert_status : String → AlertStatus
  notification_queue : List NotificationPayload
  telegram_sent : List String

/-- The all-`None` / all-`NORMAL` state built by `TemperatureMonitor.__init__`
with empty queues. -/
def initialState : MonitorState where
  latest_temperatures := fun _ _ => none
  latest_humidity := fun _ => none
  latest_pressure := fun _ => none
  latest_water_level := fun _ => none
  alert_status := fun _ => AlertStatus.NORMAL
  notification_queue := []
  telegram_sent := []

/-! ## Topic router (`TemperatureMonitor._get_device_info_from_topic`) -/

/-- The configured topic strings (`config.MQTT_TOPICS`), each possibly `None`
when the corresponding environment variable is unset. Only the eight keys
that `_get_device_info_from_topic` looks up are listed (the config also holds
`kedi3`/`kedi4`, which the router never reads). -/
structure MqttTopics where
  dryer1 : Option String
  dryer2 : Option String
  dryer3 : Option String
  kedi1 : Option String
  kedi2 : Option String
  boiler1 : Option String
  boiler2 : Option String
  humidity4 : Option String

/-- The key/value pairs of the `topic_mapping` dict literal, in source order. -/
def topicPairs (t : MqttTopics) : List (Option String × SystemType × String) :=
  [(t.dryer1, (SystemType.dryer, "dryer1")),
   (t.dryer2, (SystemType.dryer, "dryer2")),
   (t.dryer3, (SystemType.dryer, "dryer3")),
   (t.kedi1, (SystemType.kedi, "kedi1")),
   (t.kedi2, (SystemType.kedi, "kedi2")),
   (t.boiler1, (SystemType.boiler, "boiler1")),
   (t.boiler2, (SystemType.boiler, "boiler2")),
   (t.humidity4, (SystemType.kedi, "humidity4"))]

/-- Lookup with Python-dict-literal semantics: a later duplicate key
overwrites an earlier one, and `.get` returns the surviving value. -/
def dictLookupLast {α β : Type} [DecidableEq α] (ps : List (α × β)) (k : α) :
    Option β :=
  match ps with
  | [] => none
  | p :: rest =>
    match dictLookupLast rest k with
    | some r => some r
    | none => if k = p.1 then some p.2 else none

/-- `TemperatureMonitor._get_device_info_from_topic`: build the
topic-to-identity dict from the configuration and look the topic up. -/
def get_device_info_from_topic (t : MqttTopics) (topic : String) :
    Option (SystemType × String) :=
  dictLookupLast (topicPairs t) (some topic)

/-! ## Alert engine (`TemperatureMonitor._check_temperature_alerts`) -/

/-- The `title` local of the high-temperature branch. -/
def highTitle (device_id : String) : String :=
  "🔥 Suhu Tinggi (" ++ pyUpper device_id ++ ")"

/-- The `message` local of the high-temperature branch. -/
def highMessage (temperature : ℚ) : String :=
  "Suhu mencapai " ++ fmt1 temperature ++ "°C, melebihi batas normal " ++
    fmt1 MAX_TEMP_ALERT ++ "°C."

/-- The `telegram_message` local of the high-temperature branch. -/
def highTelegram (waktu : String) (device_id : String) (temperature : ℚ) :
    String :=
  "*" ++ highTitle device_id ++ "*\n\n🌡️ Suhu: *" ++ fmt1 temperature ++
    "°C*\n🕒 Waktu: " ++ waktu

/-- The `title` local of the low-temperature branch. -/
def lowTitle (device_id : String) : String :=
  "❄️ Suhu Rendah (" ++ pyUpper device_id ++ ")"

/-- The `message` local of the low-temperature branch. -/
def lowMessage (temperature : ℚ) : String :=
  "Suhu turun menjadi " ++ fmt1 temperature ++ "°C, di bawah batas normal " ++
    fmt1 MIN_TEMP_ALERT ++ "°C."

/-- The `telegram_message` local of the low-temperature branch. -/
def lowTelegram (waktu : String) (device_id : String) (temperature : ℚ) :
    String :=
  "*" ++ lowTitle device_id ++ "*\n\n🌡️ Suhu: *" ++ fmt1 temperature ++
    "°C*\n🕒 Waktu: " ++ waktu

/-- `TemperatureMonitor._check_temperature_alerts`. Parameters `waktu` and
`hour` stand for `config.format_indonesia_time()` and
`config.get_indonesia_time().hour` (the wall clock at the call). The body
first computes the `telegram_message` / `notification_payload` locals and
performs the `alert_status` assignment of the branch taken, then dispatches:
the Telegram send is guarded by `6 <= current_hour < 17`, the
`notification_queue.put` is not. -/
def check_temperature_alerts (waktu : String) (hour : ℕ) (device_id : String)
    (temperature : Option ℚ) (s : MonitorState) : MonitorState :=
  match temperature with
  | none => s
  | some temp =>
    let branch : Option String × Option NotificationPayload × MonitorState :=
      if MAX_TEMP_ALERT < temp then
        if s.alert_status device_id ≠ AlertStatus.HIGH then
          (some (highTelegram waktu device_id temp),
           some ⟨highTitle device_id, highMessage temp⟩,
           { s with alert_status := fun d =>
              if d = device_id then AlertStatus.HIGH else s.alert_status d })
        else (none, none, s)
      else if temp < MIN_TEMP_ALERT then
        if s.alert_status device_id ≠ AlertStatus.LOW then
          (some (lowTelegram waktu device_id temp),
           some ⟨lowTitle device_id, lowMessage temp⟩,
           { s with alert_status := fun d =>
              if d = device_id then AlertStatus.LOW else s.alert_status d })
        else (none, none, s)
      else
        if s.alert_status device_id ≠ AlertStatus.NORMAL then
          (none, none,
           { s with alert_status := fun d =>
              if d = device_id then AlertStatus.NORMAL else s.alert_status d })
        else (none, none, s)
    let s1 := branch.2.2
    let s2 :=
      match branch.1 with
      | some m =>
        if 6 ≤ hour ∧ hour < 17 then
          { s1 with telegram_sent := s1.telegram_sent ++ [m] }
        else s1
      | none => s1
    match branch.2.1 with
    | some p => { s2 with notification_queue := s2.notification_queue ++ [p] }
    | none => s2

/-! ## Ingestion coordinator (`TemperatureMonitor._on_mqtt_message`) -/

/-- The dict arm of the `with self.data_lock` block: store each recognized
field that is present, under the source's device/system guards. -/
def dict_store_update (system_type : SystemType) (device_id : String)
    (d : ParsedDict) (s : MonitorState) : MonitorState :=
  let s1 :=
    match d.temperature with
    | some v =>
      { s with latest_temperatures := fun st dev =>
          if st = system_type ∧ dev = device_id then v
          else s.latest_temperatures st dev }
    | none => s
  let s2 :=
    match d.humidity with
    | some v =>
      if device_id = "humidity4" then
        { s1 with latest_humidity := fun dev =>
            if dev = device_id then v else s1.latest_humidity dev }
      else s1
    | none => s1
  let s3 :=
    match d.pressure with
    | some v =>
      if system_type = SystemType.kedi then
        { s2 with latest_pressure := fun dev =>
            if dev = device_id then v else s2.latest_pressure dev }
      else s2
    | none => s2
  match d.water_level with
  | some v =>
    if system_type = SystemType.boiler then
      { s3 with latest_water_level := fun dev =>
          if dev = device_id then v else s3.latest_water_level dev }
    else s3
  | none => s3

/-- The numeric arm of the `with self.data_lock` block: store the
offset-adjusted temperature. -/
def num_store_update (system_type : SystemType) (device_id : String) (q : ℚ)
    (s : MonitorState) : MonitorState :=
  { s with latest_temperatures := fun st dev =>
      if st = system_type ∧ dev = device_id then
        apply_temperature_offset (some q)
      else s.latest_temperatures st dev }

/-- `TemperatureMonitor._on_mqtt_message`: resolve the topic (returning
untouched on an unknown one), update the latest-value tables, then run the
alert check — with the offset-adjusted value in the bare-numeric case and the
raw `parsed_data['temperature']` value in the dict case. -/
def on_mqtt_message (topics : MqttTopics) (waktu : String) (hour : ℕ)
    (parsed_data : Parsed) (topic : String) (s : MonitorState) : MonitorState :=
  match get_device_info_from_topic topics topic with
  | none => s
  | some si =>
    let s1 :=
      match parsed_data with
      | Parsed.dict d => dict_store_update si.1 si.2 d s
      | Parsed.num q => num_store_update si.1 si.2 q s
    match parsed_data with
    | Parsed.dict d =>
      match d.temperature with
      | some v => check_temperature_alerts waktu hour si.2 v s1
      | none => s1
    | Parsed.num q =>
      check_temperature_alerts waktu hour si.2
        (apply_temperature_offset (some q)) s1

/-! ## Transport callback (`MQTTService._on_message`) -/

/-- UTF-8 decoding of a byte sequence (each element < 256) into code points,
rejecting truncated sequences, stray continuation bytes, overlong forms and
surrogates, exactly as `bytes.decode('utf-8')` does. -/
def utf8DecodeCore : List ℕ → Option (List Char)
  | [] => some []
  | b :: rest =>
    if b ≤ 0x7F then
      (utf8DecodeCore rest).map (fun cs => Char.ofNat b :: cs)
    else if 0xC2 ≤ b ∧ b ≤ 0xDF then
      match rest with
      | b2 :: rest2 =>
        if 0x80 ≤ b2 ∧ b2 ≤ 0xBF then
          (utf8DecodeCore rest2).map
            (fun cs => Char.ofNat ((b - 0xC0) * 0x40 + (b2 - 0x80)) :: cs)
        else none
      | [] => none
    else if 0xE0 ≤ b ∧ b ≤ 0xEF then
      match rest with
      | b2 :: b3 :: rest3 =>
        let lo2 := if b = 0xE0 then 0xA0 else 0x80
        let hi2 := if b = 0xED then 0x9F else 0xBF
        if (lo2 ≤ b2 ∧ b2 ≤ hi2) ∧ (0x80 ≤ b3 ∧ b3 ≤ 0xBF) then
          (utf8DecodeCore rest3).map
            (fun cs => Char.ofNat
              ((b - 0xE0) * 0x1000 + (b2 - 0x80) * 0x40 + (b3 - 0x80)) :: cs)
        else none
      | _ => none
    else if 0xF0 ≤ b ∧ b ≤ 0xF4 then
      match rest with
      | b2 :: b3 :: b4 :: rest4 =>
        let lo2 := if b = 0xF0 then 0x90 else 0x80
        let hi2 := if b = 0xF4 then 0x8F else 0xBF
        if (lo2 ≤ b2 ∧ b2 ≤ hi2) ∧ (0x80 ≤ b3 ∧ b3 ≤ 0xBF) ∧
            (0x80 ≤ b4 ∧ b4 ≤ 0xBF) then
          (utf8DecodeCore rest4).map
            (fun cs => Char.ofNat
              ((b - 0xF0) * 0x40000 + (b2 - 0x80) * 0x1000 +
                (b3 - 0x80) * 0x40 + (b4 - 0x80)) :: cs)
        else none
      | _ => none
    else none

/-- `msg.payload.decode('utf-8')`: `none` models the raised
`UnicodeDecodeError`. -/
def utf8Decode (bs : List ℕ) : Option String :=
  (utf8DecodeCore bs).map String.mk

/-- Outcome of the transport message callback: either a normal return with
the resulting monitor state, or an exception escaping the callback (named by
its Python exception type). -/
inductive MsgOutcome where
  | ok (s : MonitorState)
  | uncaught (exc : String)

/-- `MQTTService._on_message`. The body runs under `try`; the `except`
handler logs `e` and then evaluates
`f"Topic: {topic}, Raw payload: {raw_payload}"`. When
`msg.payload.decode('utf-8')` raises, the local `raw_payload` was never
assigned, so that f-string raises `UnboundLocalError` inside the handler and
it escapes the callback — modelled by the `uncaught` outcome. After a
successful decode nothing in the modelled pipeline raises: a failed parse
returns `None` (logged warning) and the callback returns normally. -/
def on_message (topics : MqttTopics) (waktu : String) (hour : ℕ)
    (payloadBytes : List ℕ) (topic : String) (s : MonitorState) : MsgOutcome :=
  match utf8Decode payloadBytes with
  | none => MsgOutcome.uncaught "UnboundLocalError"
  | some raw_payload =>
    match parse_payload raw_payload with
    | some parsed_data =>
      MsgOutcome.ok (on_mqtt_message topics waktu hour parsed_data topic s)
    | none => MsgOutcome.ok s

/-- Projects the state out of a normal callback return. -/
def outState : MsgOutcome → Option MonitorState
  | MsgOutcome.ok s => some s
  | MsgOutcome.uncaught _ => none

/-! ## A concrete configuration for witnesses

The topic strings are the ones used by the repository's own test harness
(the `__main__` block of `src/services/mqtt_service.py`). -/

def exampleTopics : MqttTopics where
  dryer1 := some "esp32/dryer1/temp"
  dryer2 := some "esp32/dryer2/temp"
  dryer3 := some "esp32/dryer3/temp"
  kedi1 := some "esp32/kedi1/temp"
  kedi2 := some "esp32/kedi2/temp"
  boiler1 := some "esp32/boiler1/temp"
  boiler2 := some "esp32/boiler2/temp"
  humidity4 := some "esp32/humidity4"

/-- The UTF-8 bytes of the payload string "160.0". -/
def bytes160 : List ℕ := [49, 54, 48, 46, 48]

/-- The monitor state after the end-to-end run of C1: the UTF-8 bytes of
"160.0" arrive on the topic configured for dryer1 at 10:00 local time with
the monitor in its initial state. -/
def c1_state : MonitorState :=
  (outState (on_message exampleTopics "2026-01-05 10:00:00 WIB" 10 bytes160
    "esp32/dryer1/temp" initialState)).getD initialState

/-! ## Characterization of the alert engine -/

/-- Resulting state of a NORMAL/LOW → HIGH transition. -/
def highResult (waktu : String) (hour : ℕ) (device_id : String) (temp : ℚ)
    (s : MonitorState) : MonitorState :=
  { s with
    alert_status := fun d =>
      if d = device_id then AlertStatus.HIGH else s.alert_status d
    telegram_sent :=
      if 6 ≤ hour ∧ hour < 17 then
        s.telegram_sent ++ [highTelegram waktu device_id temp]
      else s.telegram_sent
    notification_queue :=
      s.notification_queue ++ [⟨highTitle device_id, highMessage temp⟩] }

/-- Resulting state of a NORMAL/HIGH → LOW transition. -/
def lowResult (waktu : String) (hour : ℕ) (device_id : String) (temp : ℚ)
    (s : MonitorState) : MonitorState :=
  { s with
    alert_status := fun d =>
      if d = device_id then AlertStatus.LOW else s.alert_status d
    telegram_sent :=
      if 6 ≤ hour ∧ hour < 17 then
        s.telegram_sent ++ [lowTelegram waktu device_id temp]
      else s.telegram_sent
    notification_queue :=
      s.notification_queue ++ [⟨lowTitle device_id, lowMessage temp⟩] }

/-- Resulting state of a HIGH/LOW → NORMAL transition (no messages). -/
def normalResult (device_id : String) (s : MonitorState) : MonitorState :=
  { s with
    alert_status := fun d =>
      if d = device_id then AlertStatus.NORMAL else s.alert_status d }

/-- Branch-by-branch description of `check_temperature_alerts` on a non-null
value: high and low transitions append one payload to the notification queue
and send the Telegram message only inside the 06–17 window; self-transitions
and the return to NORMAL leave the queues alone. -/
theorem check_some_eq (waktu : String) (hour : ℕ) (device_id : String)
    (temp : ℚ) (s : MonitorState) :
    check_temperature_alerts waktu hour device_id (some temp) s =
      if MAX_TEMP_ALERT < temp then
        if s.alert_status device_id = AlertStatus.HIGH then s
        else highResult waktu hour device_id temp s
      else if temp < MIN_TEMP_ALERT then
        if s.alert_status device_id = AlertStatus.LOW then s
        else lowResult waktu hour device_id temp s
      else
        if s.alert_status device_id = AlertStatus.NORMAL then s
        else normalResult device_id s := by
  by_cases h1 : MAX_TEMP_ALERT < temp
  · by_cases h2 : s.alert_status device_id = AlertStatus.HIGH
    · simp [check_temperature_alerts, h1, h2]
    · by_cases h4 : 6 ≤ hour ∧ hour < 17 <;>
        simp [check_temperature_alerts, highResult, h1, h2, h4]
  · by_cases h3 : temp < MIN_TEMP_ALERT
    · by_cases h2 : s.alert_status device_id = AlertStatus.LOW
      · simp [check_temperature_alerts, h1, h3, h2]
      · by_cases h4 : 6 ≤ hour ∧ hour < 17 <;>
          simp [check_temperature_alerts, lowResult, h1, h3, h2, h4]
    · by_cases h2 : s.alert_status device_id = AlertStatus.NORMAL
      · simp [check_temperature_alerts, h1, h3, h2]
      · simp [check_temperature_alerts, normalResult, h1, h3, h2]

/-- The alert check never touches the latest-value tables. -/
theorem check_preserves_latest (waktu : String) (hour : ℕ) (device_id : String)
    (temperature : Option ℚ) (s : MonitorState) :
    (check_temperature_alerts waktu hour device_id temperature s).latest_temperatures
      = s.latest_temperatures := by
  cases temperature with
  | none => rfl
  | some temp =>
    rw [check_some_eq]
    split_ifs <;> rfl

/-! ## Claims about the alert engine -/

/-- C7: a null temperature value short-circuits the alert evaluation: the
monitor state (alert table, queues, everything) is returned unchanged, so no
transition occurs and the notification path is never reached. -/
theorem null_temperature_noop (waktu : String) (hour : ℕ) (device_id : String)
    (s : MonitorState) :
    check_temperature_alerts waktu hour device_id none s = s := rfl

/-- C4: both threshold comparisons are strict: a value exactly equal to
`MAX_TEMP_ALERT` (155.0) is not a HIGH condition and a value exactly equal to
`MIN_TEMP_ALERT` (120.0) is not a LOW condition; both are handled by the
in-range branch, leaving the device NORMAL and producing no notification on
either channel. -/
theorem boundary_values_not_alerts (waktu : String) (hour : ℕ)
    (device_id : String) (s : MonitorState) :
    ((check_temperature_alerts waktu hour device_id (some MAX_TEMP_ALERT) s).alert_status device_id
        = AlertStatus.NORMAL ∧
     (check_temperature_alerts waktu hour device_id (some MAX_TEMP_ALERT) s).notification_queue
        = s.notification_queue ∧
     (check_temperature_alerts waktu hour device_id (some MAX_TEMP_ALERT) s).telegram_sent
        = s.telegram_sent) ∧
    ((check_temperature_alerts waktu hour device_id (some MIN_TEMP_ALERT) s).alert_status device_id
        = AlertStatus.NORMAL ∧
     (check_temperature_alerts waktu hour device_id (some MIN_TEMP_ALERT) s).notification_queue
        = s.notification_queue ∧
     (check_temperature_alerts waktu hour device_id (some MIN_TEMP_ALERT) s).telegram_sent
        = s.telegram_sent) := by
  have hMM : ¬ MAX_TEMP_ALERT < MAX_TEMP_ALERT := lt_irrefl _
  have hML : ¬ MAX_TEMP_ALERT < MIN_TEMP_ALERT := by
    norm_num [MAX_TEMP_ALERT, MIN_TEMP_ALERT]
  have hmm : ¬ MIN_TEMP_ALERT < MIN_TEMP_ALERT := lt_irrefl _
  have hMm : ¬ MAX_TEMP_ALERT < MIN_TEMP_ALERT := hML
  constructor
  · rw [check_some_eq]
    by_cases h : s.alert_status device_id = AlertStatus.NORMAL <;>
      simp [hMM, hML, h, normalResult]
  · rw [check_some_eq]
    by_cases h : s.alert_status device_id = AlertStatus.NORMAL <;>
      simp [hMm, hmm, h, normalResult]

/-- C3: alert evaluation is idempotent in its effect: re-evaluating the same
value for the same device, at any later wall-clock time, returns the state of
the first evaluation unchanged — in particular no second notification is
produced on either channel. -/
theorem alert_evaluation_idempotent (w1 w2 : String) (h1 h2 : ℕ)
    (device_id : String) (v : ℚ) (s : MonitorState) :
    check_temperature_alerts w2 h2 device_id (some v)
        (check_temperature_alerts w1 h1 device_id (some v) s)
      = check_temperature_alerts w1 h1 device_id (some v) s := by
  simp only [check_some_eq]
  by_cases hH : MAX_TEMP_ALERT < v
  · by_cases hs : s.alert_status device_id = AlertStatus.HIGH
    · simp [hH, hs]
    · simp [hH, hs, highResult]
  · by_cases hL : v < MIN_TEMP_ALERT
    · by_cases hs : s.alert_status device_id = AlertStatus.LOW
      · simp [hH, hL, hs]
      · simp [hH, hL, hs, lowResult]
    · by_cases hs : s.alert_status device_id = AlertStatus.NORMAL
      · simp [hH, hL, hs]
      · simp [hH, hL, hs, normalResult]

/-- C5: outward (Telegram) dispatch is gated by the operating-hours window
`6 <= hour < 17`: outside the window nothing is handed to the Telegram
service, while the device's alert state and the in-process notification
queue evolve exactly as they would at any in-window hour. -/
theorem telegram_gated_by_operating_hours (w w' : String) (hour hour' : ℕ)
    (device_id : String) (v : ℚ) (s : MonitorState)
    (hout : ¬(6 ≤ hour ∧ hour < 17)) :
    (check_temperature_alerts w hour device_id (some v) s).telegram_sent
        = s.telegram_sent ∧
    (check_temperature_alerts w hour device_id (some v) s).alert_status device_id
        = (check_temperature_alerts w' hour' device_id (some v) s).alert_status device_id ∧
    (check_temperature_alerts w hour device_id (some v) s).notification_queue
        = (check_temperature_alerts w' hour' device_id (some v) s).notification_queue := by
  simp only [check_some_eq]
  by_cases hH : MAX_TEMP_ALERT < v
  · by_cases hs : s.alert_status device_id = AlertStatus.HIGH
    · simp [hH, hs]
    · simp [hH, hs, highResult, hout]
  · by_cases hL : v < MIN_TEMP_ALERT
    · by_cases hs : s.alert_status device_id = AlertStatus.LOW
      · simp [hH, hL, hs]
      · simp [hH, hL, hs, lowResult, hout]
    · by_cases hs : s.alert_status device_id = AlertStatus.NORMAL
      · simp [hH, hL, hs]
      · simp [hH, hL, hs, normalResult]

/-- Witness for C5 at a concrete out-of-window hour (20:00) against the
initial state, with 10:00 as the in-window comparison hour. -/
theorem telegram_gated_by_operating_hours_witness :
    (¬((6:ℕ) ≤ 20 ∧ (20:ℕ) < 17)) ∧
    ((check_temperature_alerts "t-out" 20 "dryer1" (some 160) initialState).telegram_sent
        = initialState.telegram_sent ∧
     (check_temperature_alerts "t-out" 20 "dryer1" (some 160) initialState).alert_status "dryer1"
        = (check_temperature_alerts "t-in" 10 "dryer1" (some 160) initialState).alert_status "dryer1" ∧
     (check_temperature_alerts "t-out" 20 "dryer1" (some 160) initialState).notification_queue
        = (check_temperature_alerts "t-in" 10 "dryer1" (some 160) initialState).notification_queue) :=
  ⟨by decide,
   telegram_gated_by_operating_hours "t-out" "t-in" 20 10 "dryer1" 160
     initialState (by decide)⟩

/-- C2 counterexample: running the sequence [130, 160, 130] for one device
from the initial (NORMAL) state produces only ONE notification on each
channel, not two — the return to NORMAL resets the alert state without
emitting any message. -/
theorem hysteresis_notification_count_counterexample :
    (check_temperature_alerts "t3" 10 "dryer1" (some 130)
      (check_temperature_alerts "t2" 10 "dryer1" (some 160)
        (check_temperature_alerts "t1" 10 "dryer1" (some 130)
          initialState))).notification_queue.length ≠ 2 ∧
    (check_temperature_alerts "t3" 10 "dryer1" (some 130)
      (check_temperature_alerts "t2" 10 "dryer1" (some 160)
        (check_temperature_alerts "t1" 10 "dryer1" (some 130)
          initialState))).telegram_sent.length ≠ 2 := by
  constructor <;> decide

/-- C2 amended: for a device starting NORMAL, the sequence [130, 160, 130]
produces the transitions NORMAL→HIGH (on 160) and HIGH→NORMAL (on the return
to 130), and exactly ONE notification over the whole sequence — the one for
the HIGH transition; the return to NORMAL updates the state silently. -/
theorem hysteresis_round_trip_amended (w1 w2 w3 : String) (h1 h2 h3 : ℕ)
    (d : String) (s : MonitorState)
    (h0 : s.alert_status d = AlertStatus.NORMAL) :
    check_temperature_alerts w1 h1 d (some 130) s = s ∧
    (check_temperature_alerts w2 h2 d (some 160)
        (check_temperature_alerts w1 h1 d (some 130) s)).alert_status d
      = AlertStatus.HIGH ∧
    (check_temperature_alerts w3 h3 d (some 130)
      (check_temperature_alerts w2 h2 d (some 160)
        (check_temperature_alerts w1 h1 d (some 130) s))).alert_status d
      = AlertStatus.NORMAL ∧
    (check_temperature_alerts w3 h3 d (some 130)
      (check_temperature_alerts w2 h2 d (some 160)
        (check_temperature_alerts w1 h1 d (some 130) s))).notification_queue
      = s.notification_queue ++ [⟨highTitle d, highMessage 160⟩] := by
  have hA : ¬ MAX_TEMP_ALERT < (130 : ℚ) := by norm_num [MAX_TEMP_ALERT]
  have hB : ¬ (130 : ℚ) < MIN_TEMP_ALERT := by norm_num [MIN_TEMP_ALERT]
  have hC : MAX_TEMP_ALERT < (160 : ℚ) := by norm_num [MAX_TEMP_ALERT]
  have first : check_temperature_alerts w1 h1 d (some 130) s = s := by
    rw [check_some_eq]
    simp [hA, hB, h0]
  rw [first]
  have second :
      check_temperature_alerts w2 h2 d (some 160) s
        = highResult w2 h2 d 160 s := by
    rw [check_some_eq]
    simp [hC, h0]
  rw [second]
  have hHigh : (highResult w2 h2 d 160 s).alert_status d = AlertStatus.HIGH := by
    simp [highResult]
  have third :
      check_temperature_alerts w3 h3 d (some 130) (highResult w2 h2 d 160 s)
        = normalResult d (highResult w2 h2 d 160 s) := by
    rw [check_some_eq]
    simp [hA, hB, hHigh]
  rw [third]
  refine ⟨rfl, hHigh, ?_, ?_⟩
  · simp [normalResult]
  · simp [normalResult, highResult]

/-- Witness for C2's amended statement at the initial state. -/
theorem hysteresis_round_trip_amended_witness :
    initialState.alert_status "dryer1" = AlertStatus.NORMAL ∧
    (check_temperature_alerts "t1" 10 "dryer1" (some 130) initialState
        = initialState ∧
     (check_temperature_alerts "t2" 10 "dryer1" (some 160)
        (check_temperature_alerts "t1" 10 "dryer1" (some 130)
          initialState)).alert_status "dryer1" = AlertStatus.HIGH ∧
     (check_temperature_alerts "t3" 10 "dryer1" (some 130)
        (check_temperature_alerts "t2" 10 "dryer1" (some 160)
          (check_temperature_alerts "t1" 10 "dryer1" (some 130)
            initialState))).alert_status "dryer1" = AlertStatus.NORMAL ∧
     (check_temperature_alerts "t3" 10 "dryer1" (some 130)
        (check_temperature_alerts "t2" 10 "dryer1" (some 160)
          (check_temperature_alerts "t1" 10 "dryer1" (some 130)
            initialState))).notification_queue
        = initialState.notification_queue
            ++ [⟨highTitle "dryer1", highMessage 160⟩]) :=
  ⟨rfl,
   hysteresis_round_trip_amended "t1" "t2" "t3" 10 10 10 "dryer1"
     initialState rfl⟩

/-- C6: on a payload whose stripped form is not braced, the decoder yields
exactly `float(payload)` as a bare numeric reading when the stripped form is
a valid float literal, and the error value `None` when it is not. -/
theorem decoder_numeric_contract (p : String) :
    (∀ q : ℚ, pyFloat (pyStrip p) = some q →
      ¬(pyStartsWith (pyStrip p) "\x7b" ∧ pyEndsWith (pyStrip p) "\x7d") →
      parse_payload p = some (Parsed.num q)) ∧
    (¬(pyStartsWith (pyStrip p) "\x7b" ∧ pyEndsWith (pyStrip p) "\x7d") →
      pyFloat (pyStrip p) = none →
      parse_payload p = none) := by
  constructor
  · intro q hq hbr
    simp [parse_payload, hbr, parse_numeric_payload, hq]
  · intro hbr hq
    simp [parse_payload, hbr, parse_numeric_payload, hq]

/-- Witness for C6 at the valid literal "  160.0 " and the invalid payload
"invalid_payload". -/
theorem decoder_numeric_contract_witness :
    pyFloat (pyStrip "  160.0 ") = some 160 ∧
    ¬(pyStartsWith (pyStrip "  160.0 ") "\x7b" ∧
      pyEndsWith (pyStrip "  160.0 ") "\x7d") ∧
    parse_payload "  160.0 " = some (Parsed.num 160) ∧
    pyFloat (pyStrip "invalid_payload") = none ∧
    parse_payload "invalid_payload" = none :=
  ⟨by with_unfolding_all decide, by decide,
   (decoder_numeric_contract "  160.0 ").1 160 (by with_unfolding_all decide)
     (by decide),
   by with_unfolding_all decide,
   (decoder_numeric_contract "invalid_payload").2 (by decide)
     (by with_unfolding_all decide)⟩

/-- Association-list form of the routing miss: a key matching no pair of the
dict literal is not found. -/
theorem dictLookupLast_eq_none {α β : Type} [DecidableEq α]
    (ps : List (α × β)) (k : α) (h : ∀ p ∈ ps, p.1 ≠ k) :
    dictLookupLast ps k = none := by
  induction ps with
  | nil => rfl
  | cons p rest ih =>
    have hk : ¬ k = p.1 := fun he => h p (by simp) he.symm
    have hrest : dictLookupLast rest k = none :=
      ih (fun q hq => h q (by simp [hq]))
    simp [dictLookupLast, hrest, hk]

/-- C8: a channel identifier carried by none of the configured topics
resolves to nothing, and the message entry point returns with the monitor
state — latest-value tables, alert table and queues — exactly as it was, for
every payload. -/
theorem unknown_topic_no_mutation (topics : MqttTopics) (topic : String)
    (waktu : String) (hour : ℕ) (pd : Parsed) (s : MonitorState)
    (hnot : ∀ p ∈ topicPairs topics, p.1 ≠ some topic) :
    get_device_info_from_topic topics topic = none ∧
    on_mqtt_message topics waktu hour pd topic s = s := by
  have hres : get_device_info_from_topic topics topic = none :=
    dictLookupLast_eq_none _ _ hnot
  exact ⟨hres, by simp [on_mqtt_message, hres]⟩

/-- Witness for C8 at the concrete unconfigured channel "unknown/topic". -/
theorem unknown_topic_no_mutation_witness :
    (∀ p ∈ topicPairs exampleTopics, p.1 ≠ some "unknown/topic") ∧
    get_device_info_from_topic exampleTopics "unknown/topic" = none ∧
    on_mqtt_message exampleTopics "t" 10 (Parsed.num 25) "unknown/topic"
      initialState = initialState :=
  ⟨by decide,
   (unknown_topic_no_mutation exampleTopics "unknown/topic" "t" 10
      (Parsed.num 25) initialState (by decide)).1,
   (unknown_topic_no_mutation exampleTopics "unknown/topic" "t" 10
      (Parsed.num 25) initialState (by decide)).2⟩

/-- C10: the ingestion offset asymmetry. A routable bare-numeric reading `q`
is stored as and alert-evaluated at `q + TEMPERATURE_OFFSET` (12.6), while a
routable structured payload with a numeric `temperature` key `tq` is stored
as and alert-evaluated at `tq` itself, with no offset. -/
theorem temperature_offset_asymmetry (topics : MqttTopics) (waktu : String)
    (hour : ℕ) (topic : String) (sys : SystemType) (dev : String) (q tq : ℚ)
    (pd : ParsedDict) (s : MonitorState)
    (hroute : get_device_info_from_topic topics topic = some (sys, dev))
    (htemp : pd.temperature = some (some tq)) :
    ((on_mqtt_message topics waktu hour (Parsed.num q) topic s).latest_temperatures sys dev
        = some (q + TEMPERATURE_OFFSET) ∧
     on_mqtt_message topics waktu hour (Parsed.num q) topic s
        = check_temperature_alerts waktu hour dev (some (q + TEMPERATURE_OFFSET))
            (num_store_update sys dev q s)) ∧
    ((on_mqtt_message topics waktu hour (Parsed.dict pd) topic s).latest_temperatures sys dev
        = some tq ∧
     on_mqtt_message topics waktu hour (Parsed.dict pd) topic s
        = check_temperature_alerts waktu hour dev (some tq)
            (dict_store_update sys dev pd s)) := by
  have hlat :
      (dict_store_update sys dev pd s).latest_temperatures sys dev = some tq := by
    obtain ⟨pt, ph, pp, pw⟩ := pd
    simp only at htemp
    subst htemp
    rcases ph with _ | hv <;> rcases pp with _ | pv <;> rcases pw with _ | wv <;>
      simp [dict_store_update] <;> split_ifs <;> simp
  refine ⟨⟨?_, ?_⟩, ?_, ?_⟩
  · simp [on_mqtt_message, hroute, check_preserves_latest, num_store_update,
      apply_temperature_offset]
  · simp [on_mqtt_message, hroute, apply_temperature_offset]
  · simp only [on_mqtt_message, hroute, htemp]
    rw [check_preserves_latest]
    exact hlat
  · simp [on_mqtt_message, hroute, htemp]

/-- Witness for C10 at the configured dryer1 topic, a bare numeric reading
160 and a structured payload with temperature 150. -/
theorem temperature_offset_asymmetry_witness :
    get_device_info_from_topic exampleTopics "esp32/dryer1/temp"
        = some (SystemType.dryer, "dryer1") ∧
    (ParsedDict.mk (some (some 150)) none none none).temperature
        = some (some 150) ∧
    (on_mqtt_message exampleTopics "t" 10 (Parsed.num 160) "esp32/dryer1/temp"
        initialState).latest_temperatures SystemType.dryer "dryer1"
      = some (160 + TEMPERATURE_OFFSET) ∧
    (on_mqtt_message exampleTopics "t" 10
        (Parsed.dict (ParsedDict.mk (some (some 150)) none none none))
        "esp32/dryer1/temp" initialState).latest_temperatures
          SystemType.dryer "dryer1"
      = some 150 :=
  ⟨by decide, rfl,
   (temperature_offset_asymmetry exampleTopics "t" 10 "esp32/dryer1/temp"
      SystemType.dryer "dryer1" 160 150
      (ParsedDict.mk (some (some 150)) none none none) initialState
      (by decide) rfl).1.1,
   (temperature_offset_asymmetry exampleTopics "t" 10 "esp32/dryer1/temp"
      SystemType.dryer "dryer1" 160 150
      (ParsedDict.mk (some (some 150)) none none none) initialState
      (by decide) rfl).2.1⟩

/-! ## The end-to-end scenario (C1) -/

/-- Staged evaluation of the C1 run: decode yields the bare number 160, the
route resolves to dryer1, the store records the offset value and the alert
check fires the HIGH transition. -/
theorem c1_state_eq :
    c1_state = highResult "2026-01-05 10:00:00 WIB" 10 "dryer1"
      (160 + TEMPERATURE_OFFSET)
      (num_store_update SystemType.dryer "dryer1" 160 initialState) := by
  have hbytes : utf8Decode bytes160 = some "160.0" := rfl
  have hparse : parse_payload "160.0" = some (Parsed.num 160) := by
    with_unfolding_all decide
  have hroute : get_device_info_from_topic exampleTopics "esp32/dryer1/temp"
      = some (SystemType.dryer, "dryer1") := by decide
  have hlt : MAX_TEMP_ALERT < 160 + TEMPERATURE_OFFSET := by
    norm_num [MAX_TEMP_ALERT, TEMPERATURE_OFFSET]
  have halert : (num_store_update SystemType.dryer "dryer1" 160
      initialState).alert_status "dryer1" = AlertStatus.NORMAL := rfl
  simp only [c1_state, on_message, hbytes, hparse, on_mqtt_message, hroute,
    outState, Option.getD, apply_temperature_offset]
  rw [check_some_eq]
  simp [hlt, halert]

/-- C1 counterexample: in the end-to-end scenario the value recorded in the
latest-temperature table is NOT the payload value 160.0 — the fixed offset
12.6 has been added before storing. -/
theorem end_to_end_scenario_counterexample :
    c1_state.latest_temperatures SystemType.dryer "dryer1" ≠ some 160 := by
  rw [c1_state_eq]
  simp [highResult, num_store_update, apply_temperature_offset]
  norm_num [TEMPERATURE_OFFSET]

/-- C1 amended: the end-to-end scenario with the offset accounted for. The
route resolves to (dryer, dryer1); the stored value is 160.0 + 12.6 = 172.6;
the alert state goes NORMAL→HIGH; exactly one payload is enqueued on the
notification queue and one message is handed to the Telegram dispatcher, and
they carry the upper-cased device id "DRYER1" and the adjusted value
"172.6" (not the raw payload text "160.0"). -/
theorem end_to_end_scenario_with_offset :
    get_device_info_from_topic exampleTopics "esp32/dryer1/temp"
        = some (SystemType.dryer, "dryer1") ∧
    initialState.alert_status "dryer1" = AlertStatus.NORMAL ∧
    c1_state.latest_temperatures SystemType.dryer "dryer1"
        = some (160 + TEMPERATURE_OFFSET) ∧
    c1_state.alert_status "dryer1" = AlertStatus.HIGH ∧
    c1_state.notification_queue
        = [⟨highTitle "dryer1", highMessage (160 + TEMPERATURE_OFFSET)⟩] ∧
    c1_state.telegram_sent
        = [highTelegram "2026-01-05 10:00:00 WIB" "dryer1"
            (160 + TEMPERATURE_OFFSET)] ∧
    (∃ a b : String, highTitle "dryer1" = a ++ "DRYER1" ++ b) ∧
    (∃ a b : String, highMessage (160 + TEMPERATURE_OFFSET)
        = a ++ "172.6" ++ b) := by
  have hfmt : fmt1 (160 + TEMPERATURE_OFFSET) = "172.6" := by
    with_unfolding_all decide
  have hfmtM : fmt1 MAX_TEMP_ALERT = "155.0" := by
    with_unfolding_all decide
  refine ⟨by decide, rfl, ?_, ?_, ?_, ?_,
    ⟨"🔥 Suhu Tinggi (", ")", by decide⟩,
    ⟨"Suhu mencapai ", "°C, melebihi batas normal 155.0°C.", ?_⟩⟩
  · rw [c1_state_eq]
    simp [highResult, num_store_update, apply_temperature_offset]
  · rw [c1_state_eq]
    simp [highResult]
  · rw [c1_state_eq]
    simp [highResult, num_store_update, initialState]
  · rw [c1_state_eq]
    simp [highResult, num_store_update, initialState]
  · rw [highMessage, hfmt, hfmtM]
    decide

/-! ## Exception flow at the transport callback (C9) -/

/-- C9: a payload that is not valid UTF-8 defeats the exception containment
of `_on_message`: the `except` handler's second log line interpolates the
never-assigned local `raw_payload`, raising `UnboundLocalError`, which
escapes the message callback instead of being contained. -/
theorem decode_error_escapes_callback :
    utf8Decode [255] = none ∧
    on_message exampleTopics "t" 10 [255] "esp32/dryer1/temp" initialState
      = MsgOutcome.uncaught "UnboundLocalError" := by
  exact ⟨rfl, rfl⟩
